import Mathlib

/-
Verification of the Gemini Museum Guide session/orchestration model,
shallowly embedded from src/main.py.

The session state consists of the conversation log
(st.session_state["chat_history"], a list of (speaker, text) pairs) and
the fact history (st.session_state["fun_facts_history"], a list of
strings).  Each tab handler of main.py is embedded as a pure function
from the session state and the relevant external-collaborator outcomes
(model responses, transcription results, streamed chunk sequences) to
the new session state together with what was displayed.
-/

namespace MuseumGuide

/-- Provider-side failures of a model call: `ResourceExhausted`
(quota) or any other exception, carrying its message. -/
inductive GenError
  | quotaExceeded
  | serviceError (msg : String)
deriving DecidableEq, Repr

/-- The session state of main.py: the conversation log
`chat_history` and the fun-fact history `fun_facts_history`. -/
structure SessionState where
  chat_history : List (String × String)
  fun_facts_history : List String
deriving DecidableEq, Repr

/-- What a handler displayed to the user: a success text, an error
message, or nothing at all. -/
inductive Display
  | success (text : String)
  | errorMsg (msg : String)
  | silent
deriving DecidableEq, Repr

/-- Outcome of consuming the streamed reply of `chat.send_message`:
either the complete chunk list, or the chunks consumed before the
stream raised, together with the error. -/
inductive StreamResult
  | complete (chunks : List String)
  | failed (consumed : List String) (e : GenError)

/-- Outcome of `recognizer.recognize_google` on the recorded audio. -/
inductive VoiceResult
  | recognized (text : String)
  | unknownValue
  | requestError (msg : String)
deriving DecidableEq, Repr

/-- The quota error message shown by tabs 1, 2 and 4 (main.py lines
62, 84, 152). -/
def quotaMsg : String := "Quota exceeded. Please wait a moment and try again."

/-- The generic error message shown for a non-quota exception `e`
(main.py lines 64, 86, 125, 155). -/
def genericMsg (m : String) : String := "An error occurred: " ++ m

/-- The message a tab with a dedicated `ResourceExhausted` branch
shows for a given provider error. -/
def errDisplayMsg : GenError → String
  | GenError.quotaExceeded => quotaMsg
  | GenError.serviceError m => genericMsg m

/-- The string representation of a provider error, as Python would
interpolate it into a generic error message. -/
def genErrorText : GenError → String
  | GenError.quotaExceeded => "429 Resource has been exhausted"
  | GenError.serviceError m => m

/-- Raw image bytes of the uploaded artifact file. -/
abbrev ImageBytes := List Nat

/-- Raw audio bytes returned by the microphone recorder. -/
abbrev AudioBytes := List Nat

/-- The request sent to the vision model by tab 1, line 57:
`[image_prompt, image]` when the prompt is truthy, the bare image
otherwise. -/
inductive InsightRequest
  | withQuestion (q : String) (img : ImageBytes)
  | imageOnly (img : ImageBytes)
deriving DecidableEq, Repr

/-- Builds the vision request of main.py line 57.  Python string
truthiness: the empty prompt counts as absent. -/
def mkInsightRequest (imagePrompt : String) (img : ImageBytes) : InsightRequest :=
  if imagePrompt = "" then InsightRequest.imageOnly img
  else InsightRequest.withQuestion imagePrompt img

/-- The body of the Analyze Artifact button handler (main.py lines
56-64), applied to the outcome of `vision_model.generate_content`. -/
def analyzeArtifact (s : SessionState) (result : Except GenError String) :
    SessionState × Display :=
  match result with
  | Except.ok text =>
      ({ s with chat_history := s.chat_history ++ [("Artifact Insight", text)] },
       Display.success text)
  | Except.error GenError.quotaExceeded => (s, Display.errorMsg quotaMsg)
  | Except.error (GenError.serviceError m) => (s, Display.errorMsg (genericMsg m))

/-- Tab 1 as a whole (main.py lines 50-64): the Analyze button only
exists when a file was uploaded, and the request is built from the
optional question prompt. -/
def tab1Run (s : SessionState) (uploaded : Option ImageBytes) (imagePrompt : String)
    (pressed : Bool) (generateInsight : InsightRequest → Except GenError String) :
    SessionState × Display :=
  match uploaded with
  | none => (s, Display.silent)
  | some img =>
      if pressed then
        analyzeArtifact s (generateInsight (mkInsightRequest imagePrompt img))
      else (s, Display.silent)

/-- The chunk accumulation of main.py lines 77-80: starting from the
empty string, each arriving chunk is appended followed by one space. -/
def joinChunks (chunks : List String) : String :=
  chunks.foldl (fun acc c => acc ++ c ++ " ") ""

/-- The join policy as the specification words it: the concatenation
of the chunks in arrival order, each chunk followed by one space. -/
def spacedConcat : List String → String
  | [] => ""
  | c :: rest => c ++ " " ++ spacedConcat rest

/-- The Ask Guide button handler of tab 2 (main.py lines 72-86).
`sendTurn` models `chat.send_message(·, stream=True)` together with
the consumption of its stream.  The third component of the result is
the list of messages actually sent to the chat model. -/
def askGuide (s : SessionState) (userQuery : String)
    (sendTurn : String → StreamResult) :
    SessionState × Display × List String :=
  if userQuery = "" then (s, Display.silent, [])
  else
    match sendTurn userQuery with
    | StreamResult.complete chunks =>
        let full := joinChunks chunks
        ({ s with chat_history :=
            s.chat_history ++ [("You", userQuery), ("Guide", full)] },
         Display.success full, [userQuery])
    | StreamResult.failed _ GenError.quotaExceeded =>
        (s, Display.errorMsg quotaMsg, [userQuery])
    | StreamResult.failed _ (GenError.serviceError m) =>
        (s, Display.errorMsg (genericMsg m), [userQuery])

/-- The Voice Guide handler of tab 3 (main.py lines 97-125).  Audio
must be present and non-empty (Python truthiness of the recorder
output); transcription errors and chat errors are all caught, chat
errors only by the generic `except Exception` branch. -/
def voiceGuide (s : SessionState) (audio : Option AudioBytes)
    (transcribe : VoiceResult) (sendTurn : String → StreamResult) :
    SessionState × Display :=
  match audio with
  | none => (s, Display.silent)
  | some bytes =>
      if bytes = [] then (s, Display.silent)
      else
        match transcribe with
        | VoiceResult.unknownValue =>
            (s, Display.errorMsg "Could not understand audio. Please try speaking more clearly.")
        | VoiceResult.requestError m =>
            (s, Display.errorMsg ("Speech recognition service error: " ++ m))
        | VoiceResult.recognized q =>
            match sendTurn q with
            | StreamResult.complete chunks =>
                let full := joinChunks chunks
                ({ s with chat_history :=
                    s.chat_history ++ [("You (Voice)", q), ("Guide", full)] },
                 Display.success full)
            | StreamResult.failed _ e =>
                (s, Display.errorMsg (genericMsg (genErrorText e)))

/-- The duplicate-avoidance loop of tab 4 (main.py lines 133-156).
`gen i` is the outcome of the (i+1)-th `chat_model.generate_content`
call of the session of this button press; `idx` is the index of the
next call; `fuel` is `max_attempts - attempts`.  The third component
of the result is the index after the last call made, so with `idx = 0`
it is the total number of calls. -/
def funFactLoop (gen : Nat → Except GenError String) (s : SessionState) :
    Nat → Nat → SessionState × Display × Nat
  | idx, 0 => (s, Display.silent, idx)
  | idx, Nat.succ fuel =>
      match gen idx with
      | Except.ok newFact =>
          if newFact ∈ s.fun_facts_history then
            funFactLoop gen s (idx + 1) fuel
          else
            ({ chat_history := s.chat_history ++ [("Fun Fact", newFact)],
               fun_facts_history := s.fun_facts_history ++ [newFact] },
             Display.success newFact, idx + 1)
      | Except.error GenError.quotaExceeded =>
          (s, Display.errorMsg quotaMsg, idx + 1)
      | Except.error (GenError.serviceError m) =>
          (s, Display.errorMsg (genericMsg m), idx + 1)

/-- The Generate Fun Fact button handler (main.py lines 131-156):
the loop starts with `attempts = 0` and `max_attempts = 5`. -/
def generateFunFact (gen : Nat → Except GenError String) (s : SessionState) :
    SessionState × Display × Nat :=
  funFactLoop gen s 0 5

/-- Rendering of one log entry by tab 5 (main.py line 166):
the markdown string the code passes to `st.markdown`. -/
def renderEntry (e : String × String) : String :=
  "**" ++ e.1 ++ ":** " ++ e.2

/-- The Tour Log view (main.py lines 162-166): the placeholder when
the log is empty, otherwise one rendered line per entry in order. -/
def tourLogLines (log : List (String × String)) : List String :=
  if log.isEmpty then ["No conversation history yet."]
  else log.map renderEntry

/-- Tab 5 as a state transformer: it only reads the session state. -/
def tab5Run (s : SessionState) : SessionState × List String :=
  (s, tourLogLines s.chat_history)

/-- The plain text the markdown renderer displays for a string: bold
markers (asterisks) are formatting, not content. -/
def stripStars (t : String) : String :=
  String.mk (t.data.filter (fun c => c ≠ '*'))

/-- Startup outcome of main.py lines 17-22: either the key was found
and the client configured, or the app showed an error and stopped. -/
inductive StartupOutcome
  | configured (apiKey : String)
  | halted (message : String)
deriving DecidableEq, Repr

/-- The secret-store lookup at startup (main.py lines 17-22): a
missing `GOOGLE_API_KEY` raises `KeyError`, which is caught, an error
is displayed and `st.stop()` halts the session. -/
def loadApiKey (secrets : String → Option String) : StartupOutcome :=
  match secrets "GOOGLE_API_KEY" with
  | some k => StartupOutcome.configured k
  | none => StartupOutcome.halted
      "API key not found. Please set GOOGLE_API_KEY in your Streamlit secrets."

/-- One successful user interaction, carrying the collaborator
outcomes that drive it. -/
inductive Interaction
  | insight (text : String)
  | chatTurn (query : String) (chunks : List String)
  | voiceTurn (query : String) (chunks : List String)
  | fact (gen : Nat → Except GenError String)

/-- Runs one interaction through the corresponding handler. -/
def runInteraction (s : SessionState) : Interaction → SessionState
  | Interaction.insight t => (analyzeArtifact s (Except.ok t)).1
  | Interaction.chatTurn q chunks =>
      (askGuide s q (fun _ => StreamResult.complete chunks)).1
  | Interaction.voiceTurn q chunks =>
      (voiceGuide s (some [1]) (VoiceResult.recognized q)
        (fun _ => StreamResult.complete chunks)).1
  | Interaction.fact gen => (generateFunFact gen s).1

/-- Runs a sequence of interactions in order. -/
def runAll (s : SessionState) : List Interaction → SessionState
  | [] => s
  | i :: rest => runAll (runInteraction s i) rest

/-- Whether a display outcome is a success. -/
def isSuccess : Display → Bool
  | Display.success _ => true
  | _ => false

/-- Whether an interaction succeeds from state `s`: an insight always
does (it carries its response), a chat turn needs a non-empty query,
a voice turn carries a recognized query, and a fact run succeeds when
the loop accepts a fact. -/
def successfulB (s : SessionState) : Interaction → Bool
  | Interaction.insight _ => true
  | Interaction.chatTurn q _ => !(q = "")
  | Interaction.voiceTurn _ _ => true
  | Interaction.fact gen => isSuccess (generateFunFact gen s).2.1

/-- Whether every interaction of a sequence succeeds, run in order. -/
def allSuccessfulB (s : SessionState) : List Interaction → Bool
  | [] => true
  | i :: rest => successfulB s i && allSuccessfulB (runInteraction s i) rest

/-- Entries a successful interaction contributes to the log. -/
def contrib : Interaction → Nat
  | Interaction.insight _ => 1
  | Interaction.chatTurn _ _ => 2
  | Interaction.voiceTurn _ _ => 2
  | Interaction.fact _ => 1

/-- The log entries one interaction appends from state `s`. -/
def entriesOf (s : SessionState) : Interaction → List (String × String)
  | Interaction.insight t => [("Artifact Insight", t)]
  | Interaction.chatTurn q chunks => [("You", q), ("Guide", joinChunks chunks)]
  | Interaction.voiceTurn q chunks =>
      [("You (Voice)", q), ("Guide", joinChunks chunks)]
  | Interaction.fact gen =>
      match (generateFunFact gen s).2.1 with
      | Display.success f => [("Fun Fact", f)]
      | _ => []

/-- The full entry trace of a sequence of interactions from `s`. -/
def traceEntries (s : SessionState) : List Interaction → List (String × String)
  | [] => []
  | i :: rest => entriesOf s i ++ traceEntries (runInteraction s i) rest

/-- The whole application: startup, then the session interactions.
When the key is missing the session halts with the error message and
no feature runs; the session state stays at its initial empty value. -/
def runApp (secrets : String → Option String) (interactions : List Interaction) :
    SessionState × Option String :=
  match loadApiKey secrets with
  | StartupOutcome.halted m => (⟨[], []⟩, some m)
  | StartupOutcome.configured _ => (runAll ⟨[], []⟩ interactions, none)

/-- Scenario C fact endpoint: Fact1 on the first two calls, Fact2
afterwards. -/
def scenarioCGen : Nat → Except GenError String :=
  fun i => if i < 2 then Except.ok "Fact1" else Except.ok "Fact2"

/-- Scenario C starting state: FactHistory already holds Fact1. -/
def scenarioCState : SessionState := ⟨[], ["Fact1"]⟩

/-- A fact endpoint whose every call hits the quota limit. -/
def failGen : Nat → Except GenError String :=
  fun _ => Except.error GenError.quotaExceeded

/-- A fact endpoint whose every call raises a generic provider error. -/
def failGenSvc : Nat → Except GenError String :=
  fun _ => Except.error (GenError.serviceError "boom")

/-- Scenario A vision endpoint: always answers with the Ming vase text. -/
def scenarioAGen : InsightRequest → Except GenError String :=
  fun _ => Except.ok "A Ming vase."

/-- A concrete successful interaction sequence: one insight, one chat
turn, one fun fact. -/
def scenarioSeq : List Interaction :=
  [Interaction.insight "A Ming vase.",
   Interaction.chatTurn "hi" ["a", "b"],
   Interaction.fact (fun _ => Except.ok "F")]

theorem foldl_joinChunks (l : List String) :
    ∀ a : String, l.foldl (fun acc c => acc ++ c ++ " ") a = a ++ spacedConcat l := by
  induction l with
  | nil => intro a; simp [spacedConcat, String.append_empty]
  | cons c rest ih =>
      intro a
      show List.foldl (fun acc c => acc ++ c ++ " ") (a ++ c ++ " ") rest = _
      rw [ih (a ++ c ++ " ")]
      simp [spacedConcat, String.append_assoc]

theorem joinChunks_eq_spacedConcat (chunks : List String) :
    joinChunks chunks = spacedConcat chunks := by
  have h := foldl_joinChunks chunks ""
  simpa [joinChunks] using h

theorem stripStars_append (a b : String) :
    stripStars (a ++ b) = stripStars a ++ stripStars b := by
  simp only [stripStars, String.data_append, List.filter_append]
  rfl

theorem funFactLoop_calls_le (gen : Nat → Except GenError String) (s : SessionState) :
    ∀ fuel idx, (funFactLoop gen s idx fuel).2.2 ≤ idx + fuel := by
  intro fuel
  induction fuel with
  | zero => intro idx; simp [funFactLoop]
  | succ n ih =>
      intro idx
      unfold funFactLoop
      cases hg : gen idx with
      | error e =>
          cases e <;> simp
      | ok f =>
          by_cases hm : f ∈ s.fun_facts_history
          · simp only [if_pos hm]
            have := ih (idx + 1)
            omega
          · simp only [if_neg hm]
            omega

theorem funFactLoop_all_dup (gen : Nat → Except GenError String) (s : SessionState) :
    ∀ fuel idx,
      (∀ i, idx ≤ i → i < idx + fuel →
        ∃ g, gen i = Except.ok g ∧ g ∈ s.fun_facts_history) →
      funFactLoop gen s idx fuel = (s, Display.silent, idx + fuel) := by
  intro fuel
  induction fuel with
  | zero => intro idx _; simp [funFactLoop]
  | succ n ih =>
      intro idx h
      obtain ⟨g, hg, hmem⟩ := h idx (le_refl _) (by omega)
      unfold funFactLoop
      rw [hg]
      simp only [if_pos hmem]
      have hrec := ih (idx + 1) (fun i h1 h2 => h i (by omega) (by omega))
      rw [hrec]
      have : idx + 1 + n = idx + (n + 1) := by omega
      rw [this]

theorem funFactLoop_success (gen : Nat → Except GenError String) (s : SessionState) :
    ∀ fuel idx f,
      (funFactLoop gen s idx fuel).2.1 = Display.success f →
      f ∉ s.fun_facts_history ∧
      (funFactLoop gen s idx fuel).1 =
        { chat_history := s.chat_history ++ [("Fun Fact", f)],
          fun_facts_history := s.fun_facts_history ++ [f] } ∧
      ∃ k, idx ≤ k ∧ k < idx + fuel ∧ gen k = Except.ok f ∧
        (funFactLoop gen s idx fuel).2.2 = k + 1 ∧
        ∀ j, idx ≤ j → j < k →
          ∃ g, gen j = Except.ok g ∧ g ∈ s.fun_facts_history := by
  intro fuel
  induction fuel with
  | zero => intro idx f h; simp [funFactLoop] at h
  | succ n ih =>
      intro idx f h
      unfold funFactLoop at h ⊢
      cases hg : gen idx with
      | error e =>
          rw [hg] at h
          cases e <;> simp at h
      | ok g =>
          rw [hg] at h
          by_cases hm : g ∈ s.fun_facts_history
          · simp only [if_pos hm] at h ⊢
            obtain ⟨h1, h2, k, hk1, hk2, hk3, hk4, hk5⟩ := ih (idx + 1) f h
            refine ⟨h1, h2, k, by omega, by omega, hk3, hk4, ?_⟩
            intro j hj1 hj2
            rcases Nat.eq_or_lt_of_le hj1 with rfl | hj
            · exact ⟨g, hg, hm⟩
            · exact hk5 j (by omega) hj2
          · simp only [if_neg hm] at h ⊢
            obtain rfl : g = f := by
              simpa using h
            refine ⟨hm, rfl, idx, le_refl _, by omega, hg, rfl, ?_⟩
            intro j hj1 hj2
            omega

theorem funFactLoop_error (gen : Nat → Except GenError String) (s : SessionState) :
    ∀ fuel idx m,
      (funFactLoop gen s idx fuel).2.1 = Display.errorMsg m →
      (funFactLoop gen s idx fuel).1 = s := by
  intro fuel
  induction fuel with
  | zero => intro idx m h; simp [funFactLoop] at h
  | succ n ih =>
      intro idx m h
      unfold funFactLoop at h ⊢
      cases hg : gen idx with
      | error e =>
          cases e <;> simp
      | ok g =>
          rw [hg] at h
          by_cases hm : g ∈ s.fun_facts_history
          · simp only [if_pos hm] at h ⊢
            exact ih (idx + 1) m h
          · simp only [if_neg hm] at h
            simp at h

theorem funFactLoop_error_at (gen : Nat → Except GenError String) (s : SessionState) :
    ∀ fuel idx k e,
      idx ≤ k → k < idx + fuel → gen k = Except.error e →
      (∀ j, idx ≤ j → j < k →
        ∃ g, gen j = Except.ok g ∧ g ∈ s.fun_facts_history) →
      funFactLoop gen s idx fuel = (s, Display.errorMsg (errDisplayMsg e), k + 1) := by
  intro fuel
  induction fuel with
  | zero => intro idx k e h1 h2; omega
  | succ n ih =>
      intro idx k e h1 h2 hk hdup
      rcases Nat.eq_or_lt_of_le h1 with rfl | hlt
      · unfold funFactLoop
        rw [hk]
        cases e <;> rfl
      · obtain ⟨g, hg, hmem⟩ := hdup idx (le_refl _) hlt
        unfold funFactLoop
        rw [hg]
        simp only [if_pos hmem]
        exact ih (idx + 1) k e (by omega) (by omega) hk
          (fun j hj1 hj2 => hdup j (by omega) hj2)

/-- C2: fun fact generation makes at most 5 calls; on acceptance the
accepted fact was not in FactHistory, is appended to it, and one
`Fun Fact` entry is appended to the log, the fact being the first
non-duplicate result; when all 5 results are duplicates nothing is
displayed and neither FactHistory nor the log changes. -/
theorem funFact_bounded_dedup_C2 (gen : Nat → Except GenError String) (s : SessionState) :
    (generateFunFact gen s).2.2 ≤ 5 ∧
    (∀ f, (generateFunFact gen s).2.1 = Display.success f →
      f ∉ s.fun_facts_history ∧
      (generateFunFact gen s).1 =
        { chat_history := s.chat_history ++ [("Fun Fact", f)],
          fun_facts_history := s.fun_facts_history ++ [f] } ∧
      ∃ k, k < 5 ∧ gen k = Except.ok f ∧ (generateFunFact gen s).2.2 = k + 1 ∧
        ∀ j, j < k → ∃ g, gen j = Except.ok g ∧ g ∈ s.fun_facts_history) ∧
    ((∀ i, i < 5 → ∃ g, gen i = Except.ok g ∧ g ∈ s.fun_facts_history) →
      generateFunFact gen s = (s, Display.silent, 5)) := by
  refine ⟨?_, ?_, ?_⟩
  · simpa [generateFunFact] using funFactLoop_calls_le gen s 5 0
  · intro f h
    obtain ⟨h1, h2, k, _, hk2, hk3, hk4, hk5⟩ := funFactLoop_success gen s 5 0 f h
    exact ⟨h1, h2, k, by omega, hk3, hk4, fun j hj => hk5 j (Nat.zero_le _) hj⟩
  · intro h
    simpa [generateFunFact] using
      funFactLoop_all_dup gen s 5 0 (fun i _ h2 => h i (by omega))

/-- Witness for C2, Scenario C: Fact1 twice then Fact2, FactHistory
starting at Fact1, ends with FactHistory = Fact1, Fact2, Fact2
displayed, within the 5-call bound. -/
theorem funFact_bounded_dedup_C2_witness :
    (generateFunFact scenarioCGen scenarioCState).2.1 = Display.success "Fact2" ∧
    (generateFunFact scenarioCGen scenarioCState).1.fun_facts_history =
      ["Fact1", "Fact2"] ∧
    (generateFunFact scenarioCGen scenarioCState).2.2 ≤ 5 := by
  have h := funFact_bounded_dedup_C2 scenarioCGen scenarioCState
  refine ⟨by decide, ?_, h.1⟩
  have h2 := h.2.1 "Fact2" (by decide)
  rw [h2.2.1]
  rfl

/-- C9: when the fun fact handler surfaces an error, the session
state (FactHistory and log alike) is exactly the pre-invocation one;
an error on the (k+1)-th call after k duplicate results stops the
loop at once. -/
theorem funFact_error_frame_C9 (gen : Nat → Except GenError String) (s : SessionState) :
    (∀ m, (generateFunFact gen s).2.1 = Display.errorMsg m →
      (generateFunFact gen s).1 = s) ∧
    (∀ k e, k < 5 → gen k = Except.error e →
      (∀ j, j < k → ∃ g, gen j = Except.ok g ∧ g ∈ s.fun_facts_history) →
      generateFunFact gen s = (s, Display.errorMsg (errDisplayMsg e), k + 1)) := by
  constructor
  · intro m h
    exact funFactLoop_error gen s 5 0 m h
  · intro k e hk he hdup
    simpa [generateFunFact] using
      funFactLoop_error_at gen s 5 0 k e (Nat.zero_le _) (by omega) he
        (fun j _ hj => hdup j hj)

/-- Witness for C9: a quota failure on the first call leaves the
empty session state untouched after exactly one call. -/
theorem funFact_error_frame_C9_witness :
    generateFunFact failGen ⟨[], []⟩ =
      (⟨[], []⟩, Display.errorMsg quotaMsg, 1) := by
  have h := (funFact_error_frame_C9 failGen ⟨[], []⟩).2 0 GenError.quotaExceeded
    (by omega) rfl (fun j hj => absurd hj (by omega))
  simpa [errDisplayMsg] using h

/-- C1: a QuotaExceeded or ServiceError outcome in any feature —
including a failure partway through consuming the streamed chat
reply — leaves the conversation log exactly as it was. -/
theorem failure_preserves_log_C1 (s : SessionState) :
    (∀ e, (analyzeArtifact s (Except.error e)).1 = s) ∧
    (∀ q consumed e,
      (askGuide s q (fun _ => StreamResult.failed consumed e)).1 = s) ∧
    (∀ audio t consumed e,
      (voiceGuide s audio t (fun _ => StreamResult.failed consumed e)).1 = s) ∧
    (∀ gen m, (generateFunFact gen s).2.1 = Display.errorMsg m →
      (generateFunFact gen s).1.chat_history = s.chat_history) := by
  refine ⟨?_, ?_, ?_, ?_⟩
  · intro e; cases e <;> rfl
  · intro q consumed e
    by_cases hq : q = "" <;> cases e <;> simp [askGuide, hq]
  · intro audio t consumed e
    cases audio with
    | none => rfl
    | some bytes =>
        by_cases hb : bytes = []
        · simp [voiceGuide, hb]
        · cases t <;> simp [voiceGuide, hb]
  · intro gen m h
    exact congrArg SessionState.chat_history (funFactLoop_error gen s 5 0 m h)

/-- Witness for C1: a provider error during fun fact generation
leaves a concrete non-empty log unchanged. -/
theorem failure_preserves_log_C1_witness :
    (generateFunFact failGenSvc ⟨[("You", "hi")], []⟩).1.chat_history =
      [("You", "hi")] := by
  have h := (failure_preserves_log_C1 ⟨[("You", "hi")], []⟩).2.2.2 failGenSvc
    (genericMsg "boom") (by decide)
  exact h

/-- C3: the reply recorded for the Guide is the concatenation of the
streamed chunks in arrival order, each chunk followed by one space
(trailing space included), for text chat and voice chat alike. -/
theorem chat_reply_join_C3 (s : SessionState) (q : String) (chunks : List String)
    (bytes : AudioBytes) (hq : q ≠ "") (hb : bytes ≠ []) :
    joinChunks chunks = spacedConcat chunks ∧
    (askGuide s q (fun _ => StreamResult.complete chunks)).1.chat_history =
      s.chat_history ++ [("You", q), ("Guide", spacedConcat chunks)] ∧
    (voiceGuide s (some bytes) (VoiceResult.recognized q)
        (fun _ => StreamResult.complete chunks)).1.chat_history =
      s.chat_history ++ [("You (Voice)", q), ("Guide", spacedConcat chunks)] := by
  refine ⟨joinChunks_eq_spacedConcat chunks, ?_, ?_⟩
  · simp [askGuide, hq, joinChunks_eq_spacedConcat]
  · simp [voiceGuide, hb, joinChunks_eq_spacedConcat]

/-- Witness for C3, Scenario B: the three pyramid chunks yield the
double-spaced reply with a trailing space. -/
theorem chat_reply_join_C3_witness :
    (askGuide ⟨[], []⟩ "Who built the pyramids?"
        (fun _ => StreamResult.complete ["The ", "pharaohs ", "did."])).1.chat_history =
      [("You", "Who built the pyramids?"), ("Guide", "The  pharaohs  did. ")] := by
  have h := (chat_reply_join_C3 ⟨[], []⟩ "Who built the pyramids?"
      ["The ", "pharaohs ", "did."] [1] (by decide) (by decide)).2.1
  exact h.trans (by decide)

/-- C4: a successful chat turn with a non-empty message appends
exactly two log entries, the user entry first and the Guide entry
second, for text chat and voice chat alike. -/
theorem chat_two_entries_C4 (s : SessionState) (q : String) (chunks : List String)
    (bytes : AudioBytes) (hq : q ≠ "") (hb : bytes ≠ []) :
    (askGuide s q (fun _ => StreamResult.complete chunks)).1.chat_history =
      s.chat_history ++ [("You", q), ("Guide", joinChunks chunks)] ∧
    (voiceGuide s (some bytes) (VoiceResult.recognized q)
        (fun _ => StreamResult.complete chunks)).1.chat_history =
      s.chat_history ++ [("You (Voice)", q), ("Guide", joinChunks chunks)] := by
  constructor
  · simp [askGuide, hq]
  · simp [voiceGuide, hb]

/-- Witness for C4: a concrete chat turn appends its user entry and
its Guide entry, in that order, after the existing log. -/
theorem chat_two_entries_C4_witness :
    (askGuide ⟨[("Fun Fact", "f")], []⟩ "hello"
        (fun _ => StreamResult.complete ["hi", "there"])).1.chat_history =
      [("Fun Fact", "f"), ("You", "hello"), ("Guide", "hi there ")] := by
  have h := (chat_two_entries_C4 ⟨[("Fun Fact", "f")], []⟩ "hello" ["hi", "there"]
      [2] (by decide) (by decide)).1
  exact h.trans (by decide)

theorem runInteraction_entries (s : SessionState) (i : Interaction)
    (h : successfulB s i = true) :
    (runInteraction s i).chat_history = s.chat_history ++ entriesOf s i ∧
    (entriesOf s i).length = contrib i := by
  cases i with
  | insight t => exact ⟨rfl, rfl⟩
  | chatTurn q chunks =>
      have hq : ¬(q = "") := by simpa [successfulB] using h
      exact ⟨by simp [runInteraction, askGuide, hq, entriesOf], rfl⟩
  | voiceTurn q chunks =>
      exact ⟨by simp [runInteraction, voiceGuide, entriesOf], rfl⟩
  | fact gen =>
      have hs : isSuccess (generateFunFact gen s).2.1 = true := by
        simpa [successfulB] using h
      cases hd : (generateFunFact gen s).2.1 with
      | success f =>
          obtain ⟨_, h2, _⟩ := funFactLoop_success gen s 5 0 f hd
          constructor
          · show (funFactLoop gen s 0 5).1.chat_history = _
            rw [h2]
            simp [entriesOf, hd]
          · simp [entriesOf, hd, contrib]
      | errorMsg m => rw [hd] at hs; simp [isSuccess] at hs
      | silent => rw [hd] at hs; simp [isSuccess] at hs

/-- C5: over any sequence of successful interactions the log grows by
exactly the per-interaction contributions (1 for an insight or fact,
2 for a chat or voice turn), the entries appearing in call order
after the prior log. -/
theorem log_length_C5 (s : SessionState) (interactions : List Interaction)
    (h : allSuccessfulB s interactions = true) :
    (runAll s interactions).chat_history =
      s.chat_history ++ traceEntries s interactions ∧
    (traceEntries s interactions).length = (interactions.map contrib).sum ∧
    (runAll s interactions).chat_history.length =
      s.chat_history.length + (interactions.map contrib).sum := by
  induction interactions generalizing s with
  | nil => simp [runAll, traceEntries]
  | cons i rest ih =>
      rw [allSuccessfulB, Bool.and_eq_true] at h
      obtain ⟨h1, h2⟩ := h
      obtain ⟨hstep, hlen⟩ := runInteraction_entries s i h1
      obtain ⟨ih1, ih2, _⟩ := ih (runInteraction s i) h2
      have hA : (runAll s (i :: rest)).chat_history =
          s.chat_history ++ traceEntries s (i :: rest) := by
        simp only [runAll, traceEntries]
        rw [ih1, hstep, List.append_assoc]
      have hB : (traceEntries s (i :: rest)).length =
          ((i :: rest).map contrib).sum := by
        simp only [traceEntries, List.length_append, List.map_cons, List.sum_cons]
        rw [hlen, ih2]
      exact ⟨hA, hB, by rw [hA, List.length_append, hB]⟩

/-- Witness for C5: a concrete insight, chat turn and fun fact grow
an empty log to exactly 1 + 2 + 1 = 4 entries. -/
theorem log_length_C5_witness :
    (runAll ⟨[], []⟩ scenarioSeq).chat_history.length = 4 := by
  have h := log_length_C5 ⟨[], []⟩ scenarioSeq (by decide)
  exact h.2.2.trans (by decide)

/-- C6: tab 1 does nothing without an uploaded image, treats the
empty question as absent and a non-empty one as attached, and on a
successful response appends exactly one Artifact Insight entry with
the response text while displaying it. -/
theorem artifact_analysis_C6 (s : SessionState) (imagePrompt : String)
    (pressed : Bool) (img : ImageBytes)
    (generateInsight : InsightRequest → Except GenError String) :
    tab1Run s none imagePrompt pressed generateInsight = (s, Display.silent) ∧
    mkInsightRequest "" img = InsightRequest.imageOnly img ∧
    (imagePrompt ≠ "" →
      mkInsightRequest imagePrompt img = InsightRequest.withQuestion imagePrompt img) ∧
    (∀ t, generateInsight (mkInsightRequest imagePrompt img) = Except.ok t →
      tab1Run s (some img) imagePrompt true generateInsight =
        ({ s with chat_history := s.chat_history ++ [("Artifact Insight", t)] },
         Display.success t)) := by
  refine ⟨rfl, by simp [mkInsightRequest], ?_, ?_⟩
  · intro hp
    simp [mkInsightRequest, hp]
  · intro t ht
    simp [tab1Run, ht, analyzeArtifact]

/-- Witness for C6, Scenario A: an upload with no question and the
Ming vase response yields exactly one Artifact Insight entry. -/
theorem artifact_analysis_C6_witness :
    tab1Run ⟨[], []⟩ (some [7]) "" true scenarioAGen =
      (⟨[("Artifact Insight", "A Ming vase.")], []⟩,
       Display.success "A Ming vase.") := by
  have h := (artifact_analysis_C6 ⟨[], []⟩ "" true [7] scenarioAGen).2.2.2
    "A Ming vase." rfl
  exact h.trans (by decide)

/-- C7: the Tour Log is a pure projection of the log: the state is
untouched, an empty log shows the placeholder, a non-empty log shows
every entry in insertion order, and each rendered line displays as
speaker, colon, text. -/
theorem tour_log_view_C7 (s : SessionState) :
    (tab5Run s).1 = s ∧
    (s.chat_history = [] → (tab5Run s).2 = ["No conversation history yet."]) ∧
    (s.chat_history ≠ [] → (tab5Run s).2 = s.chat_history.map renderEntry) ∧
    (∀ r t, stripStars (renderEntry (r, t)) = stripStars r ++ ": " ++ stripStars t) := by
  refine ⟨rfl, ?_, ?_, ?_⟩
  · intro h
    simp [tab5Run, tourLogLines, h]
  · intro h
    cases hc : s.chat_history with
    | nil => exact absurd hc h
    | cons a l => simp [tab5Run, tourLogLines, hc]
  · intro r t
    show stripStars ("**" ++ r ++ ":** " ++ t) = _
    rw [stripStars_append, stripStars_append, stripStars_append]
    have h1 : stripStars "**" = "" := by decide
    have h2 : stripStars ":** " = ": " := by decide
    rw [h1, h2, String.empty_append]

/-- Witness for C7: a two-entry log renders both entries in order and
the rendered line displays as speaker, colon, text. -/
theorem tour_log_view_C7_witness :
    (tab5Run ⟨[("You", "hi"), ("Guide", "hello ")], []⟩).2 =
      ["**You:** hi", "**Guide:** hello "] ∧
    stripStars (renderEntry ("You", "hi")) = "You: hi" := by
  constructor
  · have h := (tour_log_view_C7 ⟨[("You", "hi"), ("Guide", "hello ")], []⟩).2.2.1
      (by decide)
    exact h.trans (by decide)
  · have h := (tour_log_view_C7 ⟨[], []⟩).2.2.2 "You" "hi"
    exact h.trans (by decide)

/-- C8: when the secret store has no GOOGLE_API_KEY the startup check
halts the session with an error message and no feature ever runs: the
result is the initial empty state whatever interactions were
requested. -/
theorem missing_key_halts_C8 (secrets : String → Option String)
    (interactions : List Interaction)
    (h : secrets "GOOGLE_API_KEY" = none) :
    runApp secrets interactions =
      (⟨[], []⟩, some "API key not found. Please set GOOGLE_API_KEY in your Streamlit secrets.") := by
  simp [runApp, loadApiKey, h]

/-- Witness for C8: an empty secret store halts even a session that
requested a chat turn. -/
theorem missing_key_halts_C8_witness :
    runApp (fun _ => none) [Interaction.chatTurn "hi" ["a"]] =
      (⟨[], []⟩, some "API key not found. Please set GOOGLE_API_KEY in your Streamlit secrets.") := by
  exact missing_key_halts_C8 (fun _ => none) [Interaction.chatTurn "hi" ["a"]] rfl

/-- C10: pressing Ask Guide with an empty input field is a silent
no-op: nothing is sent to the model, nothing is appended to the log,
and no error message is displayed. -/
theorem askGuide_empty_noop (s : SessionState) (sendTurn : String → StreamResult) :
    askGuide s "" sendTurn = (s, Display.silent, []) := by
  simp [askGuide]

end MuseumGuide
